import Mathlib

/-!
Shallow embedding of the `opensea_explorer` repository:
`opensea_api_client.py` (HTTP client wrapper), `fetch.py` (batch pagination
fetcher) and `explorer.py` (rarity scorer block of the dashboard).

Conventions of the embedding:
* JSON values are modelled by the inductive `Json` (numbers as `Int`;
  the fields relevant to the claims are integral).
* An HTTP response is a record carrying its status code, reason phrase,
  raw text and the result of parsing the text as JSON (`none` when the
  body is not valid JSON) — both `response.json()` and `json.loads(text)`
  in the source parse the same text, so they share this field.
* Python runtime errors that the source can raise while handling a
  response (calling a constructor with the wrong arity, indexing a
  missing key) are represented explicitly by `PyError`.
* Python `float` arithmetic in the rarity scorer is modelled by exact
  rational arithmetic (`ℚ`).
-/

/-- A JSON value. Numbers are modelled as integers, which covers every
field the source reads (`status_code`, `trait_count`, ...). -/
inductive Json where
  | null : Json
  | bool (b : Bool) : Json
  | num (n : Int) : Json
  | str (s : String) : Json
  | arr (elems : List Json) : Json
  | obj (fields : List (String × Json)) : Json
deriving Repr

/-- `j[key]` on a parsed JSON value: `some v` when `j` is an object with
the key; `none` models the Python `KeyError`/`TypeError` otherwise. -/
def Json.lookup : Json → String → Option Json
  | .obj fields, key => (fields.find? (fun kv => decide (kv.1 = key))).map (·.2)
  | _, _ => none

/-- An HTTP response as seen by `Client._handle_response` and
`OpenSeaAPIException.__init__`: status code, reason phrase, body text,
and the parse of the body (`none` when the body is not valid JSON). -/
structure HttpResponse where
  status_code : Nat
  reason : String
  text : String
  jsonBody : Option Json

/-- Python runtime errors the embedded code paths can raise. -/
inductive PyError where
  | typeError : PyError
  | keyError : PyError
  | indexError : PyError
deriving Repr, DecidableEq

/-- The data carried by a successfully constructed `OpenSeaAPIException`:
its `code` and `message` attributes (each an arbitrary JSON value, since
the source assigns `json_res["status_code"]`/`json_res["msg"]` without
checking their types). -/
structure APIExceptionData where
  code : Json
  message : Json

/-- `OpenSeaAPIException.__init__(self, response, text)` from
`opensea_api_client.py`: `code` starts at 0; if `text` is not valid JSON
the message is the `"Invalid JSON error message from OpenSea: "` wrapper
around the response's reason phrase; otherwise `code`/`message` are read
from the body's `status_code`/`msg` keys (a missing key is a Python
`KeyError`, modelled as `.error`). -/
def buildAPIException (resp : HttpResponse) : Except PyError APIExceptionData :=
  match resp.jsonBody with
  | none =>
      .ok ⟨Json.num 0, Json.str ("Invalid JSON error message from OpenSea: " ++ resp.reason)⟩
  | some json_res =>
      match json_res.lookup "status_code" with
      | none => .error .keyError
      | some c =>
          match json_res.lookup "msg" with
          | none => .error .keyError
          | some m => .ok ⟨c, m⟩

/-- The observable outcome of `Client._handle_response`. -/
inductive HandleOutcome where
  | ret (v : Json) : HandleOutcome
  | apiError (e : APIExceptionData) : HandleOutcome
  | pyError (e : PyError) : HandleOutcome

/-- `Client._handle_response` from `opensea_api_client.py`.

Status outside `[200, 300)`: `raise OpenSeaAPIException(response, response.text)`.
Status in range: return `response.json()`; if the body is not valid JSON the
source executes `raise OpenSeaAPIException(f"Invalid Response: {response.text}")`,
which passes a single argument to the two-argument `__init__(self, response, text)`
— in Python this raises `TypeError` while constructing the exception, so the
outcome is `pyError .typeError`, not an `apiError`. -/
def handle_response (resp : HttpResponse) : HandleOutcome :=
  if ¬ (200 ≤ resp.status_code ∧ resp.status_code < 300) then
    match buildAPIException resp with
    | .ok e => .apiError e
    | .error pe => .pyError pe
  else
    match resp.jsonBody with
    | some j => .ret j
    | none => .pyError .typeError

/-- `Client.API_URL`, set in `Client.__init__`. -/
def API_URL : String := "https://api.opensea.io/api/v1"

/-- `Client.TESTNET_API_URL`, set in `Client.__init__` and never read
anywhere else in the source. -/
def TESTNET_API_URL : String := "https://testnets-api.opensea.io/api/v1"

/-- `Client._create_api_uri`: `self.API_URL + '/' + path`. -/
def create_api_uri (path : String) : String :=
  API_URL ++ "/" ++ path

/-- The URI used by `Client._request_api(method, path, **kwargs)`: it calls
`_create_api_uri(path)` regardless of the method, so every verb
(`_get`/`_post`/`_put`/`_delete`) builds its URI this way. -/
def request_api_uri (_method : String) (path : String) : String :=
  create_api_uri path

/-- A Python value appearing in the `kwargs` mappings handled by
`Client._get_request_kwargs`. `pairs` is a sequence (list/tuple) of
string key/value pairs — the shape the `data` parameter takes in the
claim about GET serialization; `dict` is a string-keyed dictionary. -/
inductive PyVal where
  | none : PyVal
  | bool (b : Bool) : PyVal
  | int (n : Int) : PyVal
  | str (s : String) : PyVal
  | pairs (ps : List (String × String)) : PyVal
  | dict (d : List (String × PyVal)) : PyVal
deriving Repr

/-- A Python `dict` with string keys, modelled as an insertion-ordered
association list (as Python dicts are). -/
abbrev PyDict := List (String × PyVal)

/-- `d.get(k, None)` / `d[k]`: the value at the first (unique) occurrence
of the key. -/
def dictGet (d : PyDict) (k : String) : Option PyVal :=
  match d with
  | [] => Option.none
  | kv :: rest => if kv.1 = k then some kv.2 else dictGet rest k

/-- `d[k] = v`: replace the value in place when the key is present
(keeping its position, as Python does), else append the new entry. -/
def dictSet (d : PyDict) (k : String) (v : PyVal) : PyDict :=
  match d with
  | [] => [(k, v)]
  | kv :: rest =>
      if kv.1 = k then (k, v) :: rest else kv :: dictSet rest k v

/-- `del d[k]`. -/
def dictDel (d : PyDict) (k : String) : PyDict :=
  d.filter (fun kv => decide (kv.1 ≠ k))

/-- `d.update(other)`: set every entry of `other` in order. -/
def dictUpdate (d : PyDict) (other : PyDict) : PyDict :=
  other.foldl (fun acc kv => dictSet acc kv.1 kv.2) d

/-- Python truthiness of the values `PyVal` covers: `None`, `False`, `0`,
`''` and empty containers are falsy. -/
def pyTruthy : PyVal → Bool
  | .none => false
  | .bool b => b
  | .int n => n != 0
  | .str s => !s.isEmpty
  | .pairs ps => !ps.isEmpty
  | .dict d => !d.isEmpty

/-- The `'&'.join(f'{data[0]}={data[1]}' for data in kwargs['data'])`
expression. Iterating a sequence of pairs binds each pair, so `data[0]`
and `data[1]` are its key and value; iterating a dict binds each KEY
string, so `data[0]`/`data[1]` are its first two characters (an
`IndexError` when the key is shorter); iterating any other value is a
`TypeError`. -/
def joinData : PyVal → Except PyError String
  | .pairs ps =>
      .ok (String.intercalate "&" (ps.map (fun kv => kv.1 ++ "=" ++ kv.2)))
  | .dict d =>
      (d.mapM (fun (kv : String × PyVal) =>
        match kv.1.data.get? 0, kv.1.data.get? 1 with
        | some c0, some c1 => Except.ok (String.mk [c0] ++ "=" ++ String.mk [c1])
        | _, _ => Except.error PyError.indexError)).map
        (String.intercalate "&")
  | _ => .error .typeError

/-- The first statement of `Client._get_request_kwargs`:
`if self._requests_params: kwargs.update(self._requests_params)`
(`requestsParams` is `self._requests_params`; `None` and `{}` are falsy). -/
def mergeRequestsParams (requestsParams : Option PyDict) (kwargs : PyDict) : PyDict :=
  match requestsParams with
  | Option.none => kwargs
  | Option.some rp => if rp.isEmpty then kwargs else dictUpdate kwargs rp

/-- The `if data and isinstance(data, dict):` block of
`Client._get_request_kwargs`, where `data` was read by
`kwargs.get('data', None)` before the block. When `data` is a truthy
dict, a nested `requests_params` entry is hoisted into the kwargs by
`kwargs.update(...)` (a `TypeError` when that entry is not a mapping)
and then deleted from the nested dict — the in-place
`del kwargs['data']['requests_params']` is modelled by storing the
updated dict back under `'data'`. -/
def dataDictBranch (kwargs : PyDict) (data : Option PyVal) : Except PyError PyDict :=
  match data with
  | Option.some (PyVal.dict d) =>
      if d.isEmpty then .ok kwargs
      else
        let kwargs := dictSet kwargs "data" (.dict d)
        match dictGet d "requests_params" with
        | Option.none => .ok kwargs
        | Option.some (PyVal.dict rpd) =>
            let kwargs := dictUpdate kwargs rpd
            match dictGet kwargs "data" with
            | Option.some (PyVal.dict d2) =>
                .ok (dictSet kwargs "data" (.dict (dictDel d2 "requests_params")))
            | _ => .error .typeError
        | Option.some _ => .error .typeError
  | _ => .ok kwargs

/-- The `if data and (method == 'get' or force_params):` block of
`Client._get_request_kwargs`: serialize `kwargs['data']` into an
ampersand-joined string under `'params'` and `del kwargs['data']`. -/
def dataParamsBranch (method : String) (force_params : Bool)
    (data : Option PyVal) (kwargs : PyDict) : Except PyError PyDict :=
  let dataTruthy := match data with
    | Option.none => false
    | Option.some v => pyTruthy v
  if dataTruthy && (method == "get" || force_params) then
    match dictGet kwargs "data" with
    | Option.some v =>
        (joinData v).map fun s =>
          dictDel (dictSet kwargs "params" (.str s)) "data"
    | Option.none => .error .keyError
  else
    .ok kwargs

/-- `Client._get_request_kwargs(method, force_params, **kwargs)` from
`opensea_api_client.py`, assembled from its three statements in source
order: merge the global overrides, read `data = kwargs.get('data', None)`,
run the dict-hoisting block, then the GET serialization block. -/
def get_request_kwargs (requestsParams : Option PyDict) (method : String)
    (force_params : Bool) (kwargs : PyDict) : Except PyError PyDict :=
  let kwargs := mergeRequestsParams requestsParams kwargs
  let data := dictGet kwargs "data"
  (dataDictBranch kwargs data).bind (dataParamsBranch method force_params data)

/-- Truthiness of an optional string argument (`if collection:` with
`collection: Optional[str]`): `None` and `''` are falsy. -/
def strTruthy : Option String → Bool
  | Option.none => false
  | Option.some s => !s.isEmpty

/-- Truthiness of an optional integer argument (`if limit:` with
`limit: Optional[int]`): `None` and `0` are falsy. -/
def intTruthy : Option Int → Bool
  | Option.none => false
  | Option.some n => n != 0

/-- The `params` dict built by `Client.get_assets`: each filter is added
only when truthy, in source order; `collection` is lower-cased. -/
def get_assets_params (collection owner order_direction : Option String)
    (limit offset : Option Int) : PyDict :=
  let params : PyDict := []
  let params := match collection with
    | Option.some c => if !c.isEmpty then dictSet params "collection" (.str c.toLower) else params
    | Option.none => params
  let params := match owner with
    | Option.some o => if !o.isEmpty then dictSet params "owner" (.str o) else params
    | Option.none => params
  let params := match order_direction with
    | Option.some od => if !od.isEmpty then dictSet params "order_direction" (.str od) else params
    | Option.none => params
  let params := match limit with
    | Option.some l => if l != 0 then dictSet params "limit" (.int l) else params
    | Option.none => params
  let params := match offset with
    | Option.some o => if o != 0 then dictSet params "offset" (.int o) else params
    | Option.none => params
  params

/-- The `params` dict built by `Client.get_events`: same omit-if-falsy
policy; `collection` is lower-cased and stored under `collection_slug`. -/
def get_events_params (collection asset_contract_address token_id event_type :
    Option String) : PyDict :=
  let params : PyDict := []
  let params := match collection with
    | Option.some c => if !c.isEmpty then dictSet params "collection_slug" (.str c.toLower) else params
    | Option.none => params
  let params := match asset_contract_address with
    | Option.some a => if !a.isEmpty then dictSet params "asset_contract_address" (.str a) else params
    | Option.none => params
  let params := match token_id with
    | Option.some t => if !t.isEmpty then dictSet params "token_id" (.str t) else params
    | Option.none => params
  let params := match event_type with
    | Option.some e => if !e.isEmpty then dictSet params "event_type" (.str e) else params
    | Option.none => params
  params

/-- One iteration of the `while True` loop in `fetch.py`, over an abstract
page source `getPage offset limit` (the `client.get_assets` call with the
fixed collection and `order_direction='asc'`). The body records the
request's `(offset, limit)` arguments, extends the accumulator with the
page, and exits: either through the short-page `break`, or — after
`offset += 20` — through the unconditional `break` placed before the
progress message and the `time.sleep(1)` pacing delay, which makes the
trailing statements unreachable. Returns the requests issued and the
accumulated assets. -/
def fetchIteration {A : Type} (getPage : Nat → Nat → List A) (offset : Nat)
    (acc : List A) (reqs : List (Nat × Nat)) : List (Nat × Nat) × List A :=
  let response := getPage offset 20
  let acc := acc ++ response
  let reqs := reqs ++ [(offset, 20)]
  if response.length < 20 then
    (reqs, acc)
  else
    let _offset := offset + 20
    (reqs, acc)

/-- The whole pagination run of `fetch.py`: start at `offset = 0` with an
empty accumulator (`data = {'assets': []}`). Because both paths of the
loop body exit the loop, the run is a single iteration. -/
def fetchAssets {A : Type} (getPage : Nat → Nat → List A) :
    List (Nat × Nat) × List A :=
  fetchIteration getPage 0 [] []

/-- A trait record as read by the rarity block of `explorer.py`. -/
structure Trait where
  trait_type : String
  value : String
  trait_count : Nat
deriving Repr, DecidableEq

/-- An asset record, restricted to the fields the rarity block reads. -/
structure Asset where
  token_id : Nat
  traits : List Trait
deriving Repr, DecidableEq

/-- The inner loop of the rarity block: `asset_rarity = 1`, then for each
trait `asset_rarity *= trait['trait_count'] / totalSupply`. Python float
division is modelled by exact division in `ℚ`. -/
def assetRarity (totalSupply : ℚ) (traits : List Trait) : ℚ :=
  traits.foldl (fun asset_rarity t => asset_rarity * ((t.trait_count : ℚ) / totalSupply)) 1

/-- The collection total-supply constant of the rarity block: the literal
`8888` in `trait['trait_count'] / 8888`. -/
def explorerTotalSupply : ℚ := 8888

/-- A rarity-annotated asset as appended to `asset_rarities`. -/
structure RarityAsset where
  token_id : Nat
  rarity : ℚ
  traits : List Trait
deriving Repr, DecidableEq

/-- Building one entry of `asset_rarities` from an asset. -/
def annotateAsset (a : Asset) : RarityAsset :=
  ⟨a.token_id, assetRarity explorerTotalSupply a.traits, a.traits⟩

/-- `sorted(asset_rarities, key=lambda asset: asset['rarity'])`: Python's
`sorted` is an ascending stable merge sort on the key. -/
def sortedAssets (assets : List Asset) : List RarityAsset :=
  (assets.map annotateAsset).mergeSort (fun x y => decide (x.rarity ≤ y.rarity))

/-- `assets_sorted[:20]`, the assets the rarity endpoint displays. -/
def rarityDisplay (assets : List Asset) : List RarityAsset :=
  (sortedAssets assets).take 20

theorem dictGet_dictSet_self (d : PyDict) (k : String) (v : PyVal) :
    dictGet (dictSet d k v) k = some v := by
  induction d with
  | nil => simp [dictGet, dictSet]
  | cons kv rest ih =>
      by_cases h : kv.1 = k
      · simp [dictSet, h, dictGet]
      · simp [dictSet, h, dictGet, ih]

theorem dictGet_dictSet_ne (d : PyDict) (k k' : String) (v : PyVal)
    (h : k' ≠ k) : dictGet (dictSet d k v) k' = dictGet d k' := by
  induction d with
  | nil => simp [dictGet, dictSet, Ne.symm h]
  | cons kv rest ih =>
      by_cases hk : kv.1 = k
      · subst hk
        simp [dictSet, dictGet, Ne.symm h]
      · simp [dictSet, hk, dictGet, ih]

theorem dictDel_cons (kv : String × PyVal) (rest : PyDict) (k : String) :
    dictDel (kv :: rest) k =
      if kv.1 = k then dictDel rest k else kv :: dictDel rest k := by
  by_cases h : kv.1 = k <;> simp [dictDel, List.filter, h]

theorem dictGet_dictDel_self (d : PyDict) (k : String) :
    dictGet (dictDel d k) k = Option.none := by
  induction d with
  | nil => simp [dictGet, dictDel]
  | cons kv rest ih =>
      by_cases h : kv.1 = k
      · simp [dictDel_cons, h, ih]
      · simp [dictDel_cons, h, dictGet, ih]

theorem dictGet_dictDel_ne (d : PyDict) (k k' : String) (h : k' ≠ k) :
    dictGet (dictDel d k) k' = dictGet d k' := by
  induction d with
  | nil => simp [dictGet, dictDel]
  | cons kv rest ih =>
      by_cases hk : kv.1 = k
      · subst hk
        simp [dictDel_cons, dictGet, Ne.symm h, ih]
      · simp [dictDel_cons, hk, dictGet, ih]

theorem dictGet_dictUpdate_of_none (d other : PyDict) (k : String)
    (h : dictGet other k = Option.none) :
    dictGet (dictUpdate d other) k = dictGet d k := by
  induction other generalizing d with
  | nil => rfl
  | cons kv rest ih =>
      by_cases hk : kv.1 = k
      · simp [dictGet, hk] at h
      · have hr : dictGet rest k = Option.none := by
          simpa [dictGet, hk] using h
        have : dictUpdate d (kv :: rest) = dictUpdate (dictSet d kv.1 kv.2) rest := rfl
        rw [this, ih _ hr, dictGet_dictSet_ne _ _ _ _ (fun hh => hk hh.symm)]

theorem ga_collection (c o od : Option String) (l off : Option Int) :
    dictGet (get_assets_params c o od l off) "collection" =
      match c with
      | Option.some s => if s.isEmpty then Option.none else some (.str s.toLower)
      | Option.none => Option.none := by
  rcases c with _ | c <;> rcases o with _ | o <;> rcases od with _ | od <;>
    rcases l with _ | l <;> rcases off with _ | off <;>
    simp only [get_assets_params] <;>
    (try split_ifs) <;>
    simp_all [dictGet_dictSet_self, dictGet_dictSet_ne, dictGet]

theorem ga_owner (c o od : Option String) (l off : Option Int) :
    dictGet (get_assets_params c o od l off) "owner" =
      match o with
      | Option.some s => if s.isEmpty then Option.none else some (.str s)
      | Option.none => Option.none := by
  rcases c with _ | c <;> rcases o with _ | o <;> rcases od with _ | od <;>
    rcases l with _ | l <;> rcases off with _ | off <;>
    simp only [get_assets_params] <;>
    (try split_ifs) <;>
    simp_all [dictGet_dictSet_self, dictGet_dictSet_ne, dictGet]

theorem ga_order_direction (c o od : Option String) (l off : Option Int) :
    dictGet (get_assets_params c o od l off) "order_direction" =
      match od with
      | Option.some s => if s.isEmpty then Option.none else some (.str s)
      | Option.none => Option.none := by
  rcases c with _ | c <;> rcases o with _ | o <;> rcases od with _ | od <;>
    rcases l with _ | l <;> rcases off with _ | off <;>
    simp only [get_assets_params] <;>
    (try split_ifs) <;>
    simp_all [dictGet_dictSet_self, dictGet_dictSet_ne, dictGet]

theorem ga_limit (c o od : Option String) (l off : Option Int) :
    dictGet (get_assets_params c o od l off) "limit" =
      match l with
      | Option.some n => if n = 0 then Option.none else some (.int n)
      | Option.none => Option.none := by
  rcases c with _ | c <;> rcases o with _ | o <;> rcases od with _ | od <;>
    rcases l with _ | l <;> rcases off with _ | off <;>
    simp only [get_assets_params] <;>
    (try split_ifs) <;>
    simp_all [dictGet_dictSet_self, dictGet_dictSet_ne, dictGet]

theorem ga_offset (c o od : Option String) (l off : Option Int) :
    dictGet (get_assets_params c o od l off) "offset" =
      match off with
      | Option.some n => if n = 0 then Option.none else some (.int n)
      | Option.none => Option.none := by
  rcases c with _ | c <;> rcases o with _ | o <;> rcases od with _ | od <;>
    rcases l with _ | l <;> rcases off with _ | off <;>
    simp only [get_assets_params] <;>
    (try split_ifs) <;>
    simp_all [dictGet_dictSet_self, dictGet_dictSet_ne, dictGet]

theorem ge_collection_slug (c a t e : Option String) :
    dictGet (get_events_params c a t e) "collection_slug" =
      match c with
      | Option.some s => if s.isEmpty then Option.none else some (.str s.toLower)
      | Option.none => Option.none := by
  rcases c with _ | c <;> rcases a with _ | a <;> rcases t with _ | t <;>
    rcases e with _ | e <;>
    simp only [get_events_params] <;>
    (try split_ifs) <;>
    simp_all [dictGet_dictSet_self, dictGet_dictSet_ne, dictGet]

set_option maxHeartbeats 4000000 in
theorem ga_eq (c o od : Option String) (l off : Option Int) :
    get_assets_params c o od l off =
      (match c with
       | Option.some s => if s.isEmpty then [] else [("collection", PyVal.str s.toLower)]
       | Option.none => ([] : PyDict)) ++
      (match o with
       | Option.some s => if s.isEmpty then [] else [("owner", PyVal.str s)]
       | Option.none => []) ++
      (match od with
       | Option.some s => if s.isEmpty then [] else [("order_direction", PyVal.str s)]
       | Option.none => []) ++
      (match l with
       | Option.some n => if n = 0 then [] else [("limit", PyVal.int n)]
       | Option.none => []) ++
      (match off with
       | Option.some n => if n = 0 then [] else [("offset", PyVal.int n)]
       | Option.none => []) := by
  rcases c with _ | c <;> rcases o with _ | o <;> rcases od with _ | od <;>
    rcases l with _ | l <;> rcases off with _ | off <;>
    simp only [get_assets_params] <;>
    (try split_ifs) <;>
    simp_all [dictSet]

set_option maxHeartbeats 4000000 in
theorem ge_eq (c a t e : Option String) :
    get_events_params c a t e =
      (match c with
       | Option.some s => if s.isEmpty then [] else [("collection_slug", PyVal.str s.toLower)]
       | Option.none => ([] : PyDict)) ++
      (match a with
       | Option.some s => if s.isEmpty then [] else [("asset_contract_address", PyVal.str s)]
       | Option.none => []) ++
      (match t with
       | Option.some s => if s.isEmpty then [] else [("token_id", PyVal.str s)]
       | Option.none => []) ++
      (match e with
       | Option.some s => if s.isEmpty then [] else [("event_type", PyVal.str s)]
       | Option.none => []) := by
  rcases c with _ | c <;> rcases a with _ | a <;> rcases t with _ | t <;>
    rcases e with _ | e <;>
    simp only [get_events_params] <;>
    (try split_ifs) <;>
    simp_all [dictSet]

theorem mergeRequestsParams_data (rp : Option PyDict) (kwargs : PyDict)
    (hrp : ∀ r, rp = Option.some r → dictGet r "data" = Option.none) :
    dictGet (mergeRequestsParams rp kwargs) "data" = dictGet kwargs "data" := by
  rcases rp with _ | r
  · rfl
  · by_cases hre : r.isEmpty
    · simp [mergeRequestsParams, hre]
    · simp only [mergeRequestsParams, hre, if_neg, Bool.false_eq_true,
        not_false_iff]
      exact dictGet_dictUpdate_of_none _ _ _ (hrp r rfl)

theorem grk_pairs (rp : Option PyDict) (method : String) (fp : Bool)
    (kwargs : PyDict) (ps : List (String × String))
    (hrp : ∀ r, rp = Option.some r → dictGet r "data" = Option.none)
    (hdata : dictGet kwargs "data" = some (.pairs ps))
    (hne : ps ≠ [])
    (hm : method = "get" ∨ fp = true) :
    get_request_kwargs rp method fp kwargs =
      .ok (dictDel (dictSet (mergeRequestsParams rp kwargs) "params"
        (.str (String.intercalate "&"
          (ps.map (fun kv => kv.1 ++ "=" ++ kv.2))))) "data") := by
  have h1 : dictGet (mergeRequestsParams rp kwargs) "data" = some (.pairs ps) :=
    (mergeRequestsParams_data rp kwargs hrp).trans hdata
  simp only [get_request_kwargs]
  rw [h1]
  rw [show dataDictBranch (mergeRequestsParams rp kwargs) (some (.pairs ps)) =
    .ok (mergeRequestsParams rp kwargs) from rfl]
  show dataParamsBranch method fp (some (.pairs ps)) (mergeRequestsParams rp kwargs) = _
  simp only [dataParamsBranch]
  rw [h1]
  rcases hm with hm | hm <;>
    simp [pyTruthy, hm, hne, joinData, Except.map]

theorem foldl_mul_eq_prod {α : Type} (f : α → ℚ) (l : List α) (a : ℚ) :
    l.foldl (fun r x => r * f x) a = a * (l.map f).prod := by
  induction l generalizing a with
  | nil => simp
  | cons x xs ih => simp [ih, mul_assoc]

theorem prod_mem_unit_interval (l : List ℚ) (h : ∀ x ∈ l, 0 ≤ x ∧ x ≤ 1) :
    0 ≤ l.prod ∧ l.prod ≤ 1 := by
  induction l with
  | nil => simp
  | cons x xs ih =>
      have hx := h x (List.mem_cons_self x xs)
      have hxs := ih (fun y hy => h y (List.mem_cons_of_mem x hy))
      rw [List.prod_cons]
      exact ⟨mul_nonneg hx.1 hxs.1, mul_le_one₀ hx.2 hxs.1 hxs.2⟩

/-- C1: run against any scripted page source — including the 45-asset
collection whose pages at offsets 0/20/40 under limit 20 have sizes
20/20/5 — the `fetch.py` batch fetcher issues exactly one `get_assets`
request, at offset 0 with limit 20, accumulates exactly the items of that
first page, and terminates, because of the unconditional `break` placed
after the offset increment and before the pacing delay. -/
theorem fetch_issues_single_request :
    (∀ (A : Type) (getPage : Nat → Nat → List A),
      fetchAssets getPage = ([(0, 20)], getPage 0 20)) ∧
    fetchAssets (fun offset limit => ((List.range 45).drop offset).take limit) =
      ([(0, 20)], List.range 20) := by
  constructor
  · intro A getPage
    simp only [fetchAssets, fetchIteration]
    split <;> simp
  · decide

/-- C2: the code path for a response with status in [200, 300) whose body
is not valid JSON does NOT raise the documented APIError wrapping an
"Invalid Response" message: the source passes a single string argument to
the two-argument `OpenSeaAPIException.__init__(self, response, text)`, so
constructing the exception itself raises a Python `TypeError`. At status
200 with a non-JSON body the embedded handler yields that `TypeError`. -/
theorem handle_response_invalid_json_typeError :
    handle_response ⟨200, "OK", "not json", Option.none⟩ =
      HandleOutcome.pyError PyError.typeError := rfl

/-- C3: for a response with status outside [200, 300), the wrapper raises
an APIError whose code and message are the body's `status_code` and `msg`
fields when the body parses as JSON, and whose code defaults to 0 with a
message built from the HTTP reason phrase when the body is not valid
JSON. -/
theorem handle_response_error_status (resp : HttpResponse)
    (hout : resp.status_code < 200 ∨ 300 ≤ resp.status_code) :
    (∀ body c m, resp.jsonBody = some body →
      body.lookup "status_code" = some c → body.lookup "msg" = some m →
      handle_response resp = .apiError ⟨c, m⟩) ∧
    (resp.jsonBody = Option.none →
      handle_response resp = .apiError ⟨Json.num 0,
        Json.str ("Invalid JSON error message from OpenSea: " ++ resp.reason)⟩) := by
  have hcond : ¬ (200 ≤ resp.status_code ∧ resp.status_code < 300) := by
    rcases hout with h | h <;> omega
  constructor
  · intro body c m hb hc hm
    simp [handle_response, hcond, buildAPIException, hb, hc, hm]
  · intro hb
    simp [handle_response, hcond, buildAPIException, hb]

/-- Witness for C3 at concrete inputs: status 404 with JSON body
`\x7b"status_code": 404, "msg": "not found"\x7d` yields code 404 and
message "not found"; status 500 with a non-JSON body yields code 0 and
the reason-phrase fallback message. -/
theorem handle_response_error_status_witness :
    handle_response ⟨404, "Not Found",
      "\x7b\"status_code\": 404, \"msg\": \"not found\"\x7d",
      some (Json.obj [("status_code", Json.num 404), ("msg", Json.str "not found")])⟩ =
      .apiError ⟨Json.num 404, Json.str "not found"⟩ ∧
    handle_response ⟨500, "Internal Server Error", "oops", Option.none⟩ =
      .apiError ⟨Json.num 0,
        Json.str ("Invalid JSON error message from OpenSea: " ++ "Internal Server Error")⟩ := by
  constructor
  · exact (handle_response_error_status _ (by norm_num)).1 _ _ _ rfl rfl rfl
  · exact (handle_response_error_status _ (by norm_num)).2 rfl

/-- C8: for every response whose status code is in [200, 300) and whose
body parses as JSON, `_handle_response` returns the parsed JSON value
unchanged. -/
theorem handle_response_returns_parsed_json (resp : HttpResponse) (j : Json)
    (h1 : 200 ≤ resp.status_code) (h2 : resp.status_code < 300)
    (hb : resp.jsonBody = some j) :
    handle_response resp = .ret j := by
  simp [handle_response, h1, h2, hb]

/-- Witness for C8: a 200 response with JSON body `[]` returns exactly
that parsed value. -/
theorem handle_response_returns_parsed_json_witness :
    handle_response ⟨200, "OK", "[]", some (Json.arr [])⟩ =
      .ret (Json.arr []) :=
  handle_response_returns_parsed_json _ _ (by norm_num) (by norm_num) rfl

/-- C9: for every path and method, the request URI is the production base
URL followed by '/' and the path, and it is never the URI the testnet base
URL would give. -/
theorem request_uri_uses_production_url (method path : String) :
    request_api_uri method path = API_URL ++ "/" ++ path ∧
    request_api_uri method path ≠ TESTNET_API_URL ++ "/" ++ path := by
  constructor
  · rfl
  · intro h
    have hlen := congrArg String.length h
    simp only [request_api_uri, create_api_uri, String.length_append] at hlen
    have h1 : API_URL.length = 29 := rfl
    have h2 : TESTNET_API_URL.length = 38 := rfl
    have h3 : ("/" : String).length = 1 := rfl
    omega

/-- Witness for C9 at a concrete path: GET on `assets`. -/
theorem request_uri_uses_production_url_witness :
    request_api_uri "get" "assets" = API_URL ++ "/" ++ "assets" ∧
    request_api_uri "get" "assets" ≠ TESTNET_API_URL ++ "/" ++ "assets" :=
  request_uri_uses_production_url "get" "assets"

/-- C4: for both accessors, the outgoing query mapping contains exactly
the truthy filters, in source order, each under its query key with its
supplied value (`collection` lower-cased); a filter that is absent
(`None`) or falsy (empty string, 0) contributes no entry at all — in
particular it is never sent as an empty string or null. -/
theorem accessors_omit_falsy_filters :
    (∀ (c o od : Option String) (l off : Option Int),
      get_assets_params c o od l off =
        (match c with
         | Option.some s => if s.isEmpty then [] else [("collection", PyVal.str s.toLower)]
         | Option.none => ([] : PyDict)) ++
        (match o with
         | Option.some s => if s.isEmpty then [] else [("owner", PyVal.str s)]
         | Option.none => []) ++
        (match od with
         | Option.some s => if s.isEmpty then [] else [("order_direction", PyVal.str s)]
         | Option.none => []) ++
        (match l with
         | Option.some n => if n = 0 then [] else [("limit", PyVal.int n)]
         | Option.none => []) ++
        (match off with
         | Option.some n => if n = 0 then [] else [("offset", PyVal.int n)]
         | Option.none => [])) ∧
    (∀ (c a t e : Option String),
      get_events_params c a t e =
        (match c with
         | Option.some s => if s.isEmpty then [] else [("collection_slug", PyVal.str s.toLower)]
         | Option.none => ([] : PyDict)) ++
        (match a with
         | Option.some s => if s.isEmpty then [] else [("asset_contract_address", PyVal.str s)]
         | Option.none => []) ++
        (match t with
         | Option.some s => if s.isEmpty then [] else [("token_id", PyVal.str s)]
         | Option.none => []) ++
        (match e with
         | Option.some s => if s.isEmpty then [] else [("event_type", PyVal.str s)]
         | Option.none => [])) :=
  ⟨fun c o od l off => ga_eq c o od l off, fun c a t e => ge_eq c a t e⟩

/-- C5: a non-empty collection string is sent lower-cased, under the query
key `collection` by `get_assets` and under `collection_slug` by
`get_events`, whatever the other filters are. -/
theorem accessors_lowercase_collection (c : String) (hc : c ≠ "")
    (o od : Option String) (l off : Option Int) (a t e : Option String) :
    dictGet (get_assets_params (some c) o od l off) "collection" =
      some (.str c.toLower) ∧
    dictGet (get_events_params (some c) a t e) "collection_slug" =
      some (.str c.toLower) := by
  have hce : c.isEmpty = false :=
    Bool.eq_false_iff.mpr (fun h => hc ((String.isEmpty_iff c).1 h))
  constructor
  · rw [ga_collection]; simp [hce]
  · rw [ge_collection_slug]; simp [hce]

/-- Witness for C5: the collection "NFT-Worlds" with no other filters. -/
theorem accessors_lowercase_collection_witness :
    dictGet (get_assets_params (some "NFT-Worlds") Option.none Option.none
        Option.none Option.none) "collection" =
      some (.str "NFT-Worlds".toLower) ∧
    dictGet (get_events_params (some "NFT-Worlds") Option.none Option.none
        Option.none) "collection_slug" =
      some (.str "NFT-Worlds".toLower) :=
  accessors_lowercase_collection "NFT-Worlds" (by decide)
    Option.none Option.none Option.none Option.none
    Option.none Option.none Option.none

/-- C7: when the kwargs map `data` to a non-empty sequence of key/value
pairs and the method is `get` (or `force_params` is set), and the global
request overrides do not themselves carry a `data` entry,
`_get_request_kwargs` succeeds with a mapping whose `params` entry is the
ampersand-joined `k=v` string of those pairs in order and whose `data`
entry has been removed. -/
theorem get_request_kwargs_serializes_data (rp : Option PyDict)
    (method : String) (fp : Bool) (kwargs : PyDict)
    (ps : List (String × String))
    (hrp : ∀ r, rp = Option.some r → dictGet r "data" = Option.none)
    (hdata : dictGet kwargs "data" = some (.pairs ps))
    (hne : ps ≠ [])
    (hm : method = "get" ∨ fp = true) :
    ∃ result, get_request_kwargs rp method fp kwargs = .ok result ∧
      dictGet result "params" = some (.str (String.intercalate "&"
        (ps.map (fun kv => kv.1 ++ "=" ++ kv.2)))) ∧
      dictGet result "data" = Option.none := by
  refine ⟨_, grk_pairs rp method fp kwargs ps hrp hdata hne hm, ?_, ?_⟩
  · rw [dictGet_dictDel_ne _ _ _ (by decide), dictGet_dictSet_self]
  · exact dictGet_dictDel_self _ _

/-- Witness for C7: `data = [("a", "1"), ("b", "2")]` on a GET request
serializes to `params = "a=1&b=2"` with `data` removed. -/
theorem get_request_kwargs_serializes_data_witness :
    ∃ result, get_request_kwargs Option.none "get" false
        [("data", PyVal.pairs [("a", "1"), ("b", "2")])] = .ok result ∧
      dictGet result "params" = some (.str (String.intercalate "&"
        ([("a", "1"), ("b", "2")].map (fun kv => kv.1 ++ "=" ++ kv.2)))) ∧
      dictGet result "data" = Option.none :=
  get_request_kwargs_serializes_data Option.none "get" false
    [("data", PyVal.pairs [("a", "1"), ("b", "2")])] [("a", "1"), ("b", "2")]
    (fun r hr => by cases hr) rfl (by simp) (Or.inl rfl)

/-- C6: the rarity score is the product over the asset's traits of
`trait_count / totalSupply` (so counts [100, 50] at total supply 1000
give exactly 0.005), the scored assets are sorted with smaller scores
first, and exactly the first 20 of the sorted sequence are displayed. -/
theorem rarity_product_sorted_display :
    (∀ (totalSupply : ℚ) (traits : List Trait),
      assetRarity totalSupply traits =
        (traits.map (fun t => (t.trait_count : ℚ) / totalSupply)).prod) ∧
    assetRarity 1000 [⟨"hat", "halo", 100⟩, ⟨"eyes", "laser", 50⟩] = 5 / 1000 ∧
    (∀ assets : List Asset,
      (sortedAssets assets).Pairwise (fun x y => x.rarity ≤ y.rarity) ∧
      rarityDisplay assets = (sortedAssets assets).take 20 ∧
      (rarityDisplay assets).length = min 20 assets.length) := by
  refine ⟨?_, ?_, ?_⟩
  · intro ts traits
    simpa using foldl_mul_eq_prod (fun t => (t.trait_count : ℚ) / ts) traits 1
  · norm_num [assetRarity]
  · intro assets
    refine ⟨?_, rfl, ?_⟩
    · have h := @List.sorted_mergeSort RarityAsset
        (fun x y => decide (x.rarity ≤ y.rarity))
        (fun a b c hab hbc => by
          simp only [decide_eq_true_eq] at hab hbc ⊢
          exact le_trans hab hbc)
        (fun a b => by
          simp only [Bool.or_eq_true, decide_eq_true_eq]
          exact le_total _ _)
        (assets.map annotateAsset)
      exact h.imp (fun hab => by simpa using hab)
    · simp [rarityDisplay, sortedAssets]

/-- C10: an asset with no traits scores exactly 1 (the empty product),
and — whenever every trait count is at most the total-supply constant
8888 — any asset's score is at most the trait-less asset's score, so the
ascending sort ranks the trait-less asset as least rare. -/
theorem traitless_asset_least_rare :
    (∀ totalSupply : ℚ, assetRarity totalSupply [] = 1) ∧
    (∀ traits : List Trait,
      (∀ t ∈ traits, (t.trait_count : ℚ) ≤ explorerTotalSupply) →
      assetRarity explorerTotalSupply traits ≤ assetRarity explorerTotalSupply []) := by
  constructor
  · intro ts; rfl
  · intro traits hbound
    have hr := foldl_mul_eq_prod
      (fun t => (t.trait_count : ℚ) / explorerTotalSupply) traits 1
    have hbounds : ∀ x ∈ traits.map
        (fun t => (t.trait_count : ℚ) / explorerTotalSupply), 0 ≤ x ∧ x ≤ 1 := by
      intro x hx
      obtain ⟨t, ht, rfl⟩ := List.mem_map.1 hx
      constructor
      · exact div_nonneg (Nat.cast_nonneg _) (by norm_num [explorerTotalSupply])
      · exact (div_le_one (by norm_num [explorerTotalSupply])).2 (hbound t ht)
    have hprod := prod_mem_unit_interval _ hbounds
    calc assetRarity explorerTotalSupply traits
        = (traits.map (fun t => (t.trait_count : ℚ) / explorerTotalSupply)).prod := by
          simpa using hr
      _ ≤ 1 := hprod.2
      _ = assetRarity explorerTotalSupply [] := rfl

/-- Witness for C10: a single trait of count 12 (≤ 8888) scores no more
than the trait-less asset. -/
theorem traitless_asset_least_rare_witness :
    assetRarity explorerTotalSupply [⟨"fur", "gold", 12⟩] ≤
      assetRarity explorerTotalSupply [] :=
  traitless_asset_least_rare.2 [⟨"fur", "gold", 12⟩] (by
    intro t ht
    simp only [List.mem_singleton] at ht
    subst ht
    norm_num [explorerTotalSupply])
